import Mathlib

/-!
Shallow embedding of the viduli-connectivity service (Go, Gin + GORM + Redis).

Sources embedded:
  * `src/main.go` — the main service: `connectDB` (DSN resolution and the
    3-attempt retry loop), `connectCache`, the startup wiring in `main`, and
    the five item handlers `getItems`, `createItem`, `getItem`, `updateItem`,
    `deleteItem`.
  * `src/database/database.go` — the `database` package variant:
    `ConnectDB` (DSN resolution with its trailing empty-DSN fallback) and
    `maskPassword`.
  * `src/unnamed/part_004` — the variant `main` that calls `log.Fatalf` when
    Redis cannot be parsed or pinged.

Modelling conventions:
  * Time is a `Nat` counted in nanoseconds, matching Go `time.Duration` units.
  * The GORM-backed table is a list of rows plus the auto-increment counter.
    `db.First(&item, id)` is lookup by primary key; `db.Save` is the GORM v2
    upsert (update all fields by primary key, insert when no row matches);
    `db.Delete` removes the row with the item's primary key (the `main.go`
    `Item` has no `DeletedAt`, so deletes are hard).
  * The Redis client is a list of key/value/expiry entries plus a `failing`
    flag; when `failing` is set every cache operation returns an error
    (connection dropped / timeout), mirroring how the handlers observe a sick
    cache backend.  A missing or expired key is the `redis: nil` error.
  * `c.ShouldBindJSON(&item)` is `json.Unmarshal` into the existing struct:
    fields present in the payload overwrite the struct fields, absent fields
    keep their current values.  A payload is therefore a record of optional
    fields, and a malformed body is `none`.
-/

/-- The `Item` model of `src/main.go` (lines 26-32): primary key `id`, the
user fields `name` and `description`, and the two timestamps. -/
structure Item where
  id : Nat
  name : String
  description : String
  createdAt : Nat
  updatedAt : Nat
deriving Repr, DecidableEq

/-- A JSON request body as bound by `c.ShouldBindJSON(&item)`: each field of
`Item` that has a JSON tag (`id`, `name`, `description`, `created_at`,
`updated_at`) may or may not be present in the payload. -/
structure Payload where
  idField : Option Nat
  nameField : Option String
  descriptionField : Option String
  createdAtField : Option Nat
  updatedAtField : Option Nat
deriving Repr, DecidableEq

/-- `json.Unmarshal` into an existing struct: present payload fields
overwrite, absent fields keep the struct's current value. -/
def bindItem (base : Item) (p : Payload) : Item :=
  { id := p.idField.getD base.id
    name := p.nameField.getD base.name
    description := p.descriptionField.getD base.description
    createdAt := p.createdAtField.getD base.createdAt
    updatedAt := p.updatedAtField.getD base.updatedAt }

/-- The zero value `var item Item` that `createItem` binds into. -/
def zeroItem : Item :=
  { id := 0, name := "", description := "", createdAt := 0, updatedAt := 0 }

/-- The GORM-backed `items` table: the rows and the auto-increment sequence
for the `id` primary key. -/
structure Db where
  rows : List Item
  nextId : Nat
deriving Repr, DecidableEq

/-- `db.First(&item, id)`: fetch the row whose primary key equals `id`. -/
def storeFirst (rows : List Item) (id : Nat) : Option Item :=
  rows.find? (fun r => r.id == id)

/-- `db.Save(&item)` (GORM v2): update all fields of the row whose primary
key matches; when no row matches, insert the value instead. -/
def storeSave (rows : List Item) (it : Item) : List Item :=
  if rows.any (fun r => r.id == it.id) then
    rows.map (fun r => if r.id == it.id then it else r)
  else
    rows ++ [it]

/-- `db.Delete(&item)`: remove the row with the item's primary key (hard
delete, the `main.go` model has no `DeletedAt`). -/
def storeDelete (rows : List Item) (id : Nat) : List Item :=
  rows.filter (fun r => !(r.id == id))

/-- `db.Create(&item)`: a zero primary key is assigned from the sequence;
a caller-supplied nonzero key is inserted as given and collides (constraint
violation) when the key already exists. -/
def storeCreate (d : Db) (it : Item) : Except String (Db × Item) :=
  if it.id == 0 then
    let it2 := { it with id := d.nextId }
    Except.ok ({ rows := d.rows ++ [it2], nextId := d.nextId + 1 }, it2)
  else if (storeFirst d.rows it.id).isSome then
    Except.error "duplicate key value violates unique constraint"
  else
    Except.ok ({ d with rows := d.rows ++ [it] }, it)

/-- Go `time.Second` in nanoseconds. -/
def goSecond : Nat := 1000000000

/-- Go `time.Minute` in nanoseconds. -/
def goMinute : Nat := 60 * goSecond

/-- The Redis client state: entries `(key, value, expiresAt)` plus a flag
modelling a backend that currently fails every operation (connection
dropped / timeout). -/
structure CacheState where
  entries : List (String × String × Nat)
  failing : Bool
deriving Repr, DecidableEq

/-- `cache.Get(ctx, key).Result()`: an error when the backend is failing, the
`redis: nil` error when the key is absent or expired, otherwise the stored
value. -/
def cacheGet (c : CacheState) (key : String) (now : Nat) : Except String String :=
  if c.failing then
    Except.error "connection refused"
  else
    match c.entries.find? (fun e => e.1 == key) with
    | none => Except.error "redis: nil"
    | some e => if now < e.2.2 then Except.ok e.2.1 else Except.error "redis: nil"

/-- `cache.Set(ctx, key, value, ttl)`: no effect on a failing backend (the
handlers ignore the returned error), otherwise store the value with its
expiry instant. -/
def cacheSet (c : CacheState) (key value : String) (expiresAt : Nat) : CacheState :=
  if c.failing then c
  else { c with entries := (key, value, expiresAt) :: c.entries.filter (fun e => !(e.1 == key)) }

/-- `cache.Del(ctx, key)`: no effect on a failing backend (the handlers
ignore the returned error), otherwise remove the key. -/
def cacheDel (c : CacheState) (key : String) : CacheState :=
  if c.failing then c
  else { c with entries := c.entries.filter (fun e => !(e.1 == key)) }

/-- `json.Marshal(item)`: the serialized snapshot stored in the cache. -/
def serializeItem (it : Item) : String :=
  "\x7b\"id\":" ++ toString it.id ++ ",\"name\":\"" ++ it.name ++
    "\",\"description\":\"" ++ it.description ++
    "\",\"created_at\":" ++ toString it.createdAt ++
    ",\"updated_at\":" ++ toString it.updatedAt ++ "\x7d"

/-- Go `strings.TrimSpace`: strip leading and trailing whitespace. -/
def trimSpace (s : String) : String :=
  String.mk (((s.data.dropWhile Char.isWhitespace).reverse.dropWhile Char.isWhitespace).reverse)

/-- An HTTP response body as the handlers produce them. -/
inductive Body where
  /-- `c.JSON(status, item)` -/
  | itemJson : Item → Body
  /-- `c.JSON(status, items)`; `none` is the Go `nil` slice, rendered `null`. -/
  | listJson : Option (List Item) → Body
  /-- `c.Data(status, "application/json", bytes)`: raw bytes, verbatim. -/
  | rawData : String → Body
  /-- `c.JSON(status, gin.H\x7b"error": msg\x7d)` -/
  | errJson : String → Body
  /-- `c.Status(status)` with no body. -/
  | noContent : Body
deriving Repr, DecidableEq

/-- An HTTP response: status code and body. -/
structure Response where
  status : Nat
  body : Body
deriving Repr, DecidableEq

/-- The service's global mutable state (`src/main.go` lines 19-23): the
optional DB handle, the optional Redis handle, and the current clock. -/
structure AppState where
  db : Option Db
  cache : Option CacheState
  now : Nat
deriving Repr, DecidableEq

/-- The cache key for an item id (`"item:" + id`). -/
def itemKey (id : Nat) : String := "item:" ++ toString id

/-- Projection to the response together with the persistent-store component
of the final state (the part of the outcome the cache must never affect). -/
def respDb (r : Response × AppState) : Response × Option Db := (r.1, r.2.db)

/-- `getItems` (`src/main.go` lines 174-182): list all rows with status 200,
or the nil slice (JSON `null`) when no DB is available.  GORM `Find` leaves
the slice nil when the table is empty, so an empty table also renders
`null`. -/
def getItems (s : AppState) : Response × AppState :=
  match s.db with
  | some d =>
    (⟨200, Body.listJson (if d.rows.isEmpty then none else some d.rows)⟩, s)
  | none => (⟨200, Body.listJson none⟩, s)

/-- `createItem` (`src/main.go` lines 184-204): bind the body (400 on bind
failure), stamp both timestamps with the current time, then either insert
through the store (500 on create failure) or, with no DB, echo the item back
with status 201 and touch nothing. -/
def createItem (s : AppState) (body : Option Payload) : Response × AppState :=
  match body with
  | none => (⟨400, Body.errJson "bind error"⟩, s)
  | some p =>
    let bound := bindItem zeroItem p
    let it := { bound with createdAt := s.now, updatedAt := s.now }
    match s.db with
    | some d =>
      match storeCreate d it with
      | Except.error _ => (⟨500, Body.errJson "DB create failed"⟩, s)
      | Except.ok (d2, it2) => (⟨201, Body.itemJson it2⟩, { s with db := some d2 })
    | none => (⟨201, Body.itemJson it⟩, s)

/-- The store segment of `getItem` (`src/main.go` lines 218-234): reached
when the cache is absent or did not produce a usable hit.  404 with no DB or
a missing row; otherwise repopulate the cache (10-minute TTL) and answer
200 with the row. -/
def getItemFromStore (s : AppState) (id : Nat) : Response × AppState :=
  match s.db with
  | none => (⟨404, Body.errJson "Item not found"⟩, s)
  | some d =>
    match storeFirst d.rows id with
    | none => (⟨404, Body.errJson "Item not found"⟩, s)
    | some it =>
      let s2 :=
        match s.cache with
        | some c =>
          let c2 := cacheSet c (itemKey id) (serializeItem it) (s.now + 10 * goMinute)
          { s with cache := some c2 }
        | none => s
      (⟨200, Body.itemJson it⟩, s2)

/-- `getItem` (`src/main.go` lines 206-235): when the cache is present, a
successful `Get` whose value is not whitespace-only is returned verbatim as
raw data with status 200; any cache error or blank value falls through to
the store. -/
def getItem (s : AppState) (id : Nat) : Response × AppState :=
  match s.cache with
  | some c =>
    match cacheGet c (itemKey id) s.now with
    | Except.ok v =>
      if trimSpace v = "" then getItemFromStore s id
      else (⟨200, Body.rawData v⟩, s)
    | Except.error _ => getItemFromStore s id
  | none => getItemFromStore s id

/-- Delete the cache entry for `key` when a cache client is present
(`cache.Del`, error ignored). -/
def invalidate (s : AppState) (key : String) : AppState :=
  match s.cache with
  | some c => { s with cache := some (cacheDel c key) }
  | none => s

/-- `updateItem` (`src/main.go` lines 237-262): 404 with no DB or a missing
row; 400 on bind failure; otherwise bind the payload over the fetched row,
refresh `UpdatedAt`, `Save`, invalidate the cache entry, and answer 200 with
the saved item. -/
def updateItem (s : AppState) (id : Nat) (body : Option Payload) : Response × AppState :=
  match s.db with
  | none => (⟨404, Body.errJson "Item not found"⟩, s)
  | some d =>
    match storeFirst d.rows id with
    | none => (⟨404, Body.errJson "Item not found"⟩, s)
    | some it =>
      match body with
      | none => (⟨400, Body.errJson "bind error"⟩, s)
      | some p =>
        let it2 := { bindItem it p with updatedAt := s.now }
        let s2 := { s with db := some { d with rows := storeSave d.rows it2 } }
        (⟨200, Body.itemJson it2⟩, invalidate s2 (itemKey id))

/-- `deleteItem` (`src/main.go` lines 264-283): 404 with no DB or a missing
row; otherwise delete the row, invalidate the cache entry, and answer 204
with no body. -/
def deleteItem (s : AppState) (id : Nat) : Response × AppState :=
  match s.db with
  | none => (⟨404, Body.errJson "Item not found"⟩, s)
  | some d =>
    match storeFirst d.rows id with
    | none => (⟨404, Body.errJson "Item not found"⟩, s)
    | some it =>
      let s2 := { s with db := some { d with rows := storeDelete d.rows it.id } }
      (⟨204, Body.noContent⟩, invalidate s2 (itemKey id))

/-- Observable outcome of the "cache lookup" segment of `getItem`: `true`
exactly when the handler would answer from the cache (present backend,
successful `Get`, value not whitespace-only). -/
def cacheHit (co : Option CacheState) (key : String) (now : Nat) : Bool :=
  match co with
  | none => false
  | some c =>
    match cacheGet c key now with
    | Except.ok v => !(trimSpace v == "")
    | Except.error _ => false

/-! ## Connection establishment (`src/main.go` `connectDB`, lines 34-89) -/

/-- An environment, as read by `os.Getenv`: unset variables read as `""`. -/
def Env : Type := String → String

/-- The environment with every variable unset. -/
def emptyEnv : Env := fun _ => ""

/-- The `if v == "" then default` pattern applied to each discrete field in
`src/main.go` lines 37-60. -/
def orDefault (v d : String) : String := if v = "" then d else v

/-- DSN resolution of `src/main.go` `connectDB` (lines 35-67): a non-empty
`DATABASE_URL` is used as-is; otherwise the DSN is assembled from the six
discrete variables, each falling back to its development default. -/
def mainResolveDSN (env : Env) : String :=
  let dsn := env "DATABASE_URL"
  if dsn = "" then
    let host := orDefault (env "DB_HOST") "localhost"
    let user := orDefault (env "DB_USER") "postgres"
    let password := orDefault (env "DB_PASSWORD") "postgres"
    let dbname := orDefault (env "DB_NAME") "postgres"
    let port := orDefault (env "DB_PORT") "5432"
    let sslmode := orDefault (env "SSL_MODE") "disable"
    "host=" ++ host ++ " user=" ++ user ++ " password=" ++ password ++
      " dbname=" ++ dbname ++ " port=" ++ port ++ " sslmode=" ++ sslmode
  else dsn

/-- Outcome of one connection attempt: `gorm.Open` fails, `db.DB()` fails,
the liveness `Ping` fails, or everything succeeds. -/
inductive Attempt where
  | openFail : String → Attempt
  | dbFail : String → Attempt
  | pingFail : String → Attempt
  | ok : Attempt
deriving Repr, DecidableEq

/-- The error the retry loop body records for an attempt (`none` when open,
handle acquisition and ping all succeed, in which case the loop returns). -/
def attErr : Attempt → Option String
  | Attempt.openFail e => some e
  | Attempt.dbFail e => some e
  | Attempt.pingFail e => some e
  | Attempt.ok => none

/-- The retry loop of `src/main.go` `connectDB` (lines 70-88) over the
remaining attempt indices: on the first attempt whose open and ping both
succeed it returns `none` (connected) immediately; after a failed attempt
`i` it sleeps `i * base` and continues; when the indices run out it returns
the last recorded error.  The result pairs the outcome (`none` = connected,
`some e` = the returned error) with the list of sleeps performed. -/
def connectRetry (att : Nat → Attempt) (base : Nat) :
    List Nat → String → Option String × List Nat
  | [], lastErr => (some lastErr, [])
  | i :: rest, _ =>
    match attErr (att i) with
    | none => (none, [])
    | some e =>
      let r := connectRetry att base rest e
      (r.1, i * base :: r.2)

/-- `connectDB`'s retry phase: attempts `1, 2, 3` with backoff
`i * time.Second` (`base` nanoseconds per unit). -/
def connectDBAttempts (att : Nat → Attempt) (base : Nat) : Option String × List Nat :=
  connectRetry att base [1, 2, 3] ""

/-- Startup wiring for the cache in `src/main.go` `main` (lines 126-133):
a `connectCache` failure is logged, the global is set to `nil` and startup
continues; the `Except.ok` wrapper records that this branch never reaches a
`log.Fatal` (the only `Fatal` in `main` is the final `router.Run` failure). -/
def mainCacheStartup (outcome : Except String CacheState) : Except String (Option CacheState) :=
  match outcome with
  | Except.error _ => Except.ok none
  | Except.ok c => Except.ok (some c)

/-- Redis wiring of the `src/unnamed/part_004` `main` (lines 33-47),
modelled on its two failure points: `redis.ParseURL` failure and `Ping`
failure each invoke `log.Fatalf`, rendered here as `Except.error` (process
terminated); only when both succeed does startup continue. -/
def part004RedisInit (parseOutcome : Except String Unit) (pingOutcome : Except String Unit) :
    Except String Unit :=
  match parseOutcome with
  | Except.error e => Except.error ("Could not parse Redis URL: " ++ e)
  | Except.ok _ =>
    match pingOutcome with
    | Except.error e => Except.error ("Could not connect to Redis: " ++ e)
    | Except.ok _ => Except.ok ()

/-! ## The `database` package (`src/database/database.go`) -/

/-- `pat` is a prefix of `text` (character lists). -/
def isPrefixList : List Char → List Char → Bool
  | [], _ => true
  | _ :: _, [] => false
  | p :: ps, t :: ts => p == t && isPrefixList ps ts

/-- Go `strings.Replace(s, old, new, 1)`: replace the first occurrence of
`pat` in `text` by `rep` (character lists). -/
def replaceFirstList (text pat rep : List Char) : List Char :=
  match text with
  | [] => []
  | c :: rest =>
    if isPrefixList pat (c :: rest) then rep ++ (c :: rest).drop pat.length
    else c :: replaceFirstList rest pat rep

/-- `text` contains `pat` as a substring (character lists). -/
def hasSublist (text pat : List Char) : Bool :=
  match text with
  | [] => pat.isEmpty
  | _ :: rest => isPrefixList pat text || hasSublist rest pat

/-- `s` contains `pat` as a substring. -/
def containsSub (s pat : String) : Bool := hasSublist s.data pat.data

/-- `maskPassword` of `src/database/database.go` (lines 64-66):
`strings.Replace(dsn, "password=", "password=***", 1)`. -/
def maskPassword (dsn : String) : String :=
  String.mk (replaceFirstList dsn.data "password=".data "password=***".data)

/-- The diagnostic record emitted by `database.ConnectDB` (line 53):
`log.Printf("Connecting to database with DSN: %s", maskPassword(dsn))`. -/
def connectLogLine (dsn : String) : String :=
  "Connecting to database with DSN: " ++ maskPassword dsn

/-- The hard-coded development DSN of `src/database/database.go` line 50. -/
def databaseDefaultDSN : String :=
  "host=localhost user=postgres password=postgres dbname=postgres port=5432 sslmode=disable"

/-- DSN resolution of `database.ConnectDB` (`src/database/database.go`
lines 26-51): a non-empty `DATABASE_URL` wins; otherwise the DSN is built by
`fmt.Sprintf` from the discrete variables, of which only `SSL_MODE` and
`DB_PORT` have defaults; finally, a still-empty DSN would fall back to the
hard-coded development DSN. -/
def databaseResolveDSN (env : Env) : String :=
  let dsn0 := env "DATABASE_URL"
  let dsn1 :=
    if dsn0 = "" then
      let host := env "DB_HOST"
      let user := env "DB_USER"
      let password := env "DB_PASSWORD"
      let dbname := env "DB_NAME"
      let port := env "DB_PORT"
      let sslmode0 := env "SSL_MODE"
      let sslmode := orDefault sslmode0 "disable"
      let port2 := orDefault port "5432"
      "host=" ++ host ++ " user=" ++ user ++ " password=" ++ password ++
        " dbname=" ++ dbname ++ " port=" ++ port2 ++ " sslmode=" ++ sslmode
    else dsn0
  if dsn1 = "" then databaseDefaultDSN else dsn1

/-- An environment that sets only `DB_PASSWORD`. -/
def envWithPassword (pw : String) : Env :=
  fun k => if k = "DB_PASSWORD" then pw else ""

/-! ## Helper lemmas about the store and cache operations -/

/-- A row fetched by primary key carries that primary key. -/
theorem storeFirst_id (rows : List Item) (id : Nat) (it : Item)
    (h : storeFirst rows id = some it) : it.id = id := by
  have hp := List.find?_some h
  simpa using hp

/-- A row fetched by primary key is a member of the table. -/
theorem storeFirst_mem (rows : List Item) (id : Nat) (it : Item)
    (h : storeFirst rows id = some it) : it ∈ rows :=
  List.mem_of_find?_eq_some h

/-- Lookup after the in-place half of `storeSave`: when some row matches the
saved item's key, the overwritten table yields the saved item. -/
theorem find?_map_overwrite (rows : List Item) (it2 : Item) :
    (rows.map (fun r => if r.id == it2.id then it2 else r)).find?
        (fun r => r.id == it2.id) =
      if rows.any (fun r => r.id == it2.id) then some it2 else none := by
  induction rows with
  | nil => rfl
  | cons r rs ih =>
    cases hb : r.id == it2.id with
    | true =>
      have h1 : (if r.id == it2.id then it2 else r) = it2 := by simp [hb]
      rw [List.map_cons, h1, List.find?_cons_of_pos]
      · simp [List.any_cons, hb]
      · simp
    | false =>
      have h1 : (if r.id == it2.id then it2 else r) = r := by simp [hb]
      rw [List.map_cons, h1, List.find?_cons_of_neg, ih]
      · simp [List.any_cons, hb]
      · simp [hb]

/-- `Save` then `First` on the same key returns exactly the saved item,
provided the key was already present (the in-place update path). -/
theorem storeFirst_save (rows : List Item) (it2 : Item)
    (hany : rows.any (fun r => r.id == it2.id) = true) :
    storeFirst (storeSave rows it2) it2.id = some it2 := by
  unfold storeFirst storeSave
  rw [hany]
  simpa [hany] using find?_map_overwrite rows it2

/-- `Delete` then `First` on the same key finds nothing. -/
theorem storeFirst_delete (rows : List Item) (id : Nat) :
    storeFirst (storeDelete rows id) id = none := by
  unfold storeFirst storeDelete
  rw [List.find?_eq_none]
  intro x hx
  have hz := (List.mem_filter.mp hx).2
  simp at hz
  simp [hz]

/-- After `cache.Del` on a key, a lookup of that key can never be a usable
hit. -/
theorem cacheHit_del (c : CacheState) (k : String) (now : Nat) :
    cacheHit (some (cacheDel c k)) k now = false := by
  unfold cacheHit cacheDel cacheGet
  by_cases hf : c.failing
  · simp [hf]
  · have hnone : (c.entries.filter (fun e => !(e.1 == k))).find? (fun e => e.1 == k) = none := by
      rw [List.find?_eq_none]
      intro x hx
      have hz := (List.mem_filter.mp hx).2
      simp at hz
      simp [hz]
    simp [hf, hnone]

/-- When the cache-lookup segment does not produce a usable hit, `getItem`
is its store segment. -/
theorem getItem_no_hit (s : AppState) (id : Nat)
    (h : cacheHit s.cache (itemKey id) s.now = false) :
    getItem s id = getItemFromStore s id := by
  cases hc : s.cache with
  | none => simp [getItem, hc]
  | some c =>
    rw [hc] at h
    simp only [cacheHit] at h
    cases hg : cacheGet c (itemKey id) s.now with
    | error e => simp [getItem, hc, hg]
    | ok v =>
      simp only [hg] at h
      simp at h
      simp [getItem, hc, hg, h]

/-- The store segment of `getItem` never touches the persistent store, and
its response does not depend on the cache component of the state. -/
theorem getItemFromStore_respDb (dbo : Option Db) (co co2 : Option CacheState) (now id : Nat) :
    respDb (getItemFromStore ⟨dbo, co, now⟩ id) = respDb (getItemFromStore ⟨dbo, co2, now⟩ id) := by
  cases dbo with
  | none => rfl
  | some d =>
    cases hf : storeFirst d.rows id with
    | none => simp [getItemFromStore, hf, respDb]
    | some it => cases co <;> cases co2 <;> simp [getItemFromStore, hf, respDb]

/-- Invalidation only touches the cache component. -/
theorem invalidate_db (s : AppState) (key : String) : (invalidate s key).db = s.db := by
  cases hc : s.cache <;> simp [invalidate, hc]

/-- A cache client whose backend is failing never produces a usable hit. -/
theorem cacheHit_failing (entries : List (String × String × Nat)) (key : String) (now : Nat) :
    cacheHit (some ⟨entries, true⟩) key now = false := by
  simp [cacheHit, cacheGet]

/-! ## Claim theorems -/

/-- C1: the claim says two runs differing only in the password produce
identical diagnostic records (the password redacted before logging).
REFUTED on `src/database/database.go`: `maskPassword` replaces the
nine-character marker `"password="` by `"password=***"` and leaves the
password value itself in place, so the diagnostic line of `ConnectDB`
(line 53) still contains the plaintext password and differs between two
runs that differ only in `DB_PASSWORD`. -/
theorem c1_maskPassword_leaks_plaintext :
    maskPassword "host=localhost user=postgres password=hunter2 dbname=postgres port=5432 sslmode=disable" =
        "host=localhost user=postgres password=***hunter2 dbname=postgres port=5432 sslmode=disable" ∧
      containsSub (connectLogLine (databaseResolveDSN (envWithPassword "hunter2"))) "hunter2" = true ∧
      connectLogLine (databaseResolveDSN (envWithPassword "hunter2")) ≠
        connectLogLine (databaseResolveDSN (envWithPassword "swordfish")) := by
  refine ⟨by decide, by decide, by decide⟩

/-- C2 counterexample: with the persistent store unreachable (`db == nil`)
and no cache, `createItem` answers 201 with the echoed item (identifier 0)
while changing no state, and the immediately following `getItem` on the
identifier that `Create` returned (0) answers 404 — so `Create` followed by
`Get` does NOT succeed: `src/main.go` has no ephemeral fallback backend. -/
theorem c2_create_then_get_fails_cex :
    (createItem ⟨none, none, 7⟩ (some ⟨none, some "a", some "d", none, none⟩)).1 =
        ⟨201, Body.itemJson ⟨0, "a", "d", 7, 7⟩⟩ ∧
      (createItem ⟨none, none, 7⟩ (some ⟨none, some "a", some "d", none, none⟩)).2 =
        ⟨none, none, 7⟩ ∧
      (getItem ⟨none, none, 7⟩ 0).1 = ⟨404, Body.errJson "Item not found"⟩ :=
  ⟨rfl, rfl, rfl⟩

/-- C2 amended: when the persistent store is unreachable at startup
(`db == nil`), a well-formed `Create` still answers 201 echoing the bound
item, but it stores nothing (the state is unchanged), and any following
`Get` — in particular on the identifier `Create` returned — answers 404:
there is no ephemeral fallback backend in the code. -/
theorem c2_degraded_create_then_get (p : Payload) (now id : Nat) :
    (createItem ⟨none, none, now⟩ (some p)).1.status = 201 ∧
      (createItem ⟨none, none, now⟩ (some p)).2 = ⟨none, none, now⟩ ∧
      (getItem ⟨none, none, now⟩ id).1 = ⟨404, Body.errJson "Item not found"⟩ :=
  ⟨rfl, rfl, rfl⟩

/-- C3: the claim says the stored row's identifier and creation timestamp
are unchanged by every update payload.  The code evaluated at the failing
input: the table holds the row `id 1, createdAt 100`; `updateItem 1` with
the payload carrying only a `created_at` field (value 999) answers 200 and
stores `createdAt 999` — `ShouldBindJSON` into the fetched struct lets the
payload overwrite the creation timestamp (and likewise `id`), contradicting
the specified immutability. -/
theorem c3_update_overwrites_created_at :
    (updateItem ⟨some ⟨[⟨1, "a", "d", 100, 100⟩], 2⟩, none, 500⟩ 1
        (some ⟨none, none, none, some 999, none⟩)).1 =
        ⟨200, Body.itemJson ⟨1, "a", "d", 999, 500⟩⟩ ∧
      (updateItem ⟨some ⟨[⟨1, "a", "d", 100, 100⟩], 2⟩, none, 500⟩ 1
          (some ⟨none, none, none, some 999, none⟩)).2.db =
        some ⟨[⟨1, "a", "d", 999, 500⟩], 2⟩ :=
  ⟨rfl, rfl⟩

/-- C4 counterexample: an update payload may reassign the primary key
(`ShouldBindJSON` binds the `id` field).  `updateItem 1` with payload
`id 2, name "new"` completes successfully (status 200), but `Save` then
writes row 2, row 1 is never mutated, and the immediately following
`getItem 1` answers 200 with exactly the pre-update state of resource 1 —
refuting "never returns a value reflecting the pre-update state". -/
theorem c4_stale_read_after_id_reassign_cex :
    (updateItem ⟨some ⟨[⟨1, "old", "", 10, 10⟩], 2⟩, none, 50⟩ 1
        (some ⟨some 2, some "new", none, none, none⟩)).1.status = 200 ∧
      (getItem (updateItem ⟨some ⟨[⟨1, "old", "", 10, 10⟩], 2⟩, none, 50⟩ 1
          (some ⟨some 2, some "new", none, none, none⟩)).2 1).1 =
        ⟨200, Body.itemJson ⟨1, "old", "", 10, 10⟩⟩ :=
  ⟨rfl, rfl⟩

/-- C6 counterexample: in the `src/unnamed/part_004` variant, a cache
(Redis) connection failure at startup invokes `log.Fatalf` — the process
terminates (`Except.error`) instead of running with the cache absent. -/
theorem c6_part004_fatal_on_cache_failure_cex :
    part004RedisInit (Except.ok ()) (Except.error "connection refused") =
        Except.error "Could not connect to Redis: connection refused" ∧
      part004RedisInit (Except.ok ()) (Except.error "connection refused") ≠
        Except.ok () :=
  ⟨rfl, fun h => Except.noConfusion h⟩

/-- C8: the claim says every unset discrete field falls back to a
development default (localhost, 5432, disable).  The code of
`database.ConnectDB` evaluated at the failing input (every variable unset):
only port and ssl-mode receive defaults, host/user/password/dbname stay
empty, and the result differs from the hard-coded development DSN of
`database.go` line 50 — that fallback is unreachable because the
`fmt.Sprintf` result is never the empty string.  The `main.go` resolver
does produce the full development default, witnessing the intent. -/
theorem c8_database_defaults_missing :
    databaseResolveDSN emptyEnv =
        "host= user= password= dbname= port=5432 sslmode=disable" ∧
      databaseResolveDSN emptyEnv ≠ databaseDefaultDSN ∧
      mainResolveDSN emptyEnv = databaseDefaultDSN := by
  refine ⟨by decide, by decide, by decide⟩

/-- C9 counterexample: the cache holds a non-expired entry for `"item:3"`
whose value is the blank string `"  "`; the claim requires `getItem` to
return those cached bytes verbatim, but the code's `TrimSpace` guard treats
the blank value as a miss and (with no store) answers 404. -/
theorem c9_blank_cache_entry_cex :
    cacheGet ⟨[("item:3", "  ", 100)], false⟩ "item:3" 0 = Except.ok "  " ∧
      (getItem ⟨none, some ⟨[("item:3", "  ", 100)], false⟩, 0⟩ 3).1 =
        ⟨404, Body.errJson "Item not found"⟩ :=
  ⟨rfl, by decide⟩

/-- C10 counterexample: with `db == nil`, a well-formed body that supplies
`"id": 7` is echoed back with identifier 7, not 0; and a `getItem` while the
cache holds an entry answers 200 from the cache, not 404.  Both universal
parts of the claim fail. -/
theorem c10_degraded_claim_cex :
    (createItem ⟨none, none, 0⟩ (some ⟨some 7, some "x", none, none, none⟩)).1 =
        ⟨201, Body.itemJson ⟨7, "x", "", 0, 0⟩⟩ ∧
      (getItem ⟨none, some ⟨[("item:9", "cached-nine", 50)], false⟩, 0⟩ 9).1 =
        ⟨200, Body.rawData "cached-nine"⟩ :=
  ⟨rfl, by decide⟩

/-- C7: the retry loop of `connectDB` makes at most 3 attempts (its outcome
depends only on attempts 1-3), returns connected immediately on the first
attempt whose open and ping both succeed — having slept `i * base` after
each failed attempt `i` before it — and returns the error observed on
attempt 3 after three consecutive failures, as a value rather than by
terminating the process. -/
theorem c7_connect_retry_contract (att att2 : Nat → Attempt) (base : Nat) (e1 e2 e3 : String) :
    (attErr (att 1) = none → connectDBAttempts att base = (none, [])) ∧
      (attErr (att 1) = some e1 → attErr (att 2) = none →
        connectDBAttempts att base = (none, [base])) ∧
      (attErr (att 1) = some e1 → attErr (att 2) = some e2 → attErr (att 3) = none →
        connectDBAttempts att base = (none, [base, 2 * base])) ∧
      (attErr (att 1) = some e1 → attErr (att 2) = some e2 → attErr (att 3) = some e3 →
        connectDBAttempts att base = (some e3, [base, 2 * base, 3 * base])) ∧
      (att 1 = att2 1 → att 2 = att2 2 → att 3 = att2 3 →
        connectDBAttempts att base = connectDBAttempts att2 base) := by
  refine ⟨?_, ?_, ?_, ?_, ?_⟩
  · intro h1
    simp [connectDBAttempts, connectRetry, h1]
  · intro h1 h2
    simp [connectDBAttempts, connectRetry, h1, h2]
  · intro h1 h2 h3
    simp [connectDBAttempts, connectRetry, h1, h2, h3]
  · intro h1 h2 h3
    simp [connectDBAttempts, connectRetry, h1, h2, h3]
  · intro h1 h2 h3
    simp [connectDBAttempts, connectRetry, h1, h2, h3]

/-- C7 witness: a run that succeeds on the first attempt connects with no
sleeping, and a run whose three attempts all fail returns the third error
after sleeping 1, 2 and 3 seconds. -/
theorem c7_connect_retry_contract_witness :
    connectDBAttempts (fun _ => Attempt.ok) goSecond = (none, []) ∧
      connectDBAttempts (fun i => Attempt.openFail (toString i)) goSecond =
        (some "3", [goSecond, 2 * goSecond, 3 * goSecond]) := by
  constructor
  · exact (c7_connect_retry_contract (fun _ => Attempt.ok) (fun _ => Attempt.ok)
      goSecond "" "" "").1 rfl
  · exact ((c7_connect_retry_contract (fun i => Attempt.openFail (toString i))
      (fun _ => Attempt.ok) goSecond "1" "2" "3").2.2.2.1) rfl rfl rfl

/-- C6 amended: in the main service (`src/main.go`) a cache failure never
terminates the process and never fails the surrounding operation — a
`connectCache` failure at startup leaves the service running with the cache
set to nil, and a failing cache backend during Get/Update/Delete/Create
yields exactly the response and store state of the same operation with the
cache absent; the `src/unnamed/part_004` variant, however, terminates the
process on a cache connection failure at startup. -/
theorem c6_cache_failure_transparent (dbo : Option Db)
    (entries : List (String × String × Nat)) (now id : Nat) (p : Payload) (e : String) :
    mainCacheStartup (Except.error e) = Except.ok none ∧
      respDb (getItem ⟨dbo, some ⟨entries, true⟩, now⟩ id) =
        respDb (getItem ⟨dbo, none, now⟩ id) ∧
      respDb (updateItem ⟨dbo, some ⟨entries, true⟩, now⟩ id (some p)) =
        respDb (updateItem ⟨dbo, none, now⟩ id (some p)) ∧
      respDb (deleteItem ⟨dbo, some ⟨entries, true⟩, now⟩ id) =
        respDb (deleteItem ⟨dbo, none, now⟩ id) ∧
      respDb (createItem ⟨dbo, some ⟨entries, true⟩, now⟩ (some p)) =
        respDb (createItem ⟨dbo, none, now⟩ (some p)) := by
  refine ⟨rfl, ?_, ?_, ?_, ?_⟩
  · rw [getItem_no_hit ⟨dbo, some ⟨entries, true⟩, now⟩ id
        (cacheHit_failing entries (itemKey id) now),
      getItem_no_hit ⟨dbo, none, now⟩ id rfl]
    exact getItemFromStore_respDb dbo (some ⟨entries, true⟩) none now id
  · cases dbo with
    | none => rfl
    | some d =>
      cases hf : storeFirst d.rows id with
      | none => simp [updateItem, hf, respDb]
      | some it => simp [updateItem, hf, respDb, invalidate]
  · cases dbo with
    | none => rfl
    | some d =>
      cases hf : storeFirst d.rows id with
      | none => simp [deleteItem, hf, respDb]
      | some it => simp [deleteItem, hf, respDb, invalidate]
  · cases dbo with
    | none => rfl
    | some d =>
      cases hcr : storeCreate d { bindItem zeroItem p with createdAt := now, updatedAt := now } with
      | error msg => simp [createItem, hcr, respDb]
      | ok r => simp [createItem, hcr, respDb]

/-- C4 amended: for update payloads that do not reassign the identifier,
a successful `updateItem id` answers 200 with the patched item (update
timestamp refreshed), the immediately following `getItem id` returns exactly
that post-update item — never the pre-update value, even if an earlier read
had populated the cache entry, because the entry is deleted after the store
mutation and is not repopulated by the update. -/
theorem c4_update_then_get_fresh (rows : List Item) (nid now id : Nat)
    (co : Option CacheState) (p : Payload) (it : Item)
    (hfind : storeFirst rows id = some it) (hid : p.idField = none) :
    (updateItem ⟨some ⟨rows, nid⟩, co, now⟩ id (some p)).1 =
        ⟨200, Body.itemJson { bindItem it p with updatedAt := now }⟩ ∧
      (getItem (updateItem ⟨some ⟨rows, nid⟩, co, now⟩ id (some p)).2 id).1 =
        ⟨200, Body.itemJson { bindItem it p with updatedAt := now }⟩ ∧
      ({ bindItem it p with updatedAt := now } ≠ it →
        (getItem (updateItem ⟨some ⟨rows, nid⟩, co, now⟩ id (some p)).2 id).1.body ≠
          Body.itemJson it) := by
  have hitid : it.id = id := storeFirst_id rows id it hfind
  have hbid : (bindItem it p).id = id := by
    simp [bindItem, hid, hitid]
  have hit2id : ({ bindItem it p with updatedAt := now } : Item).id = id := hbid
  have hstep : updateItem ⟨some ⟨rows, nid⟩, co, now⟩ id (some p) =
      (⟨200, Body.itemJson { bindItem it p with updatedAt := now }⟩,
        invalidate ⟨some ⟨storeSave rows { bindItem it p with updatedAt := now }, nid⟩, co, now⟩
          (itemKey id)) := by
    simp [updateItem, hfind]
  have hany : rows.any (fun r => r.id == ({ bindItem it p with updatedAt := now } : Item).id) = true := by
    rw [List.any_eq_true]
    exact ⟨it, storeFirst_mem rows id it hfind, by simp [hitid, hbid]⟩
  have hsf : storeFirst (storeSave rows { bindItem it p with updatedAt := now }) id =
      some { bindItem it p with updatedAt := now } := by
    have h0 := storeFirst_save rows { bindItem it p with updatedAt := now } hany
    rwa [hit2id] at h0
  have hget : (getItem (updateItem ⟨some ⟨rows, nid⟩, co, now⟩ id (some p)).2 id).1 =
      ⟨200, Body.itemJson { bindItem it p with updatedAt := now }⟩ := by
    rw [hstep]
    have hnohit :
        cacheHit (invalidate ⟨some ⟨storeSave rows { bindItem it p with updatedAt := now }, nid⟩,
            co, now⟩ (itemKey id)).cache (itemKey id)
          (invalidate ⟨some ⟨storeSave rows { bindItem it p with updatedAt := now }, nid⟩,
            co, now⟩ (itemKey id)).now = false := by
      cases co with
      | none => rfl
      | some c => simpa [invalidate] using cacheHit_del c (itemKey id) now
    rw [getItem_no_hit _ _ hnohit]
    cases co with
    | none => simp [invalidate, getItemFromStore, hsf]
    | some c => simp [invalidate, getItemFromStore, hsf]
  refine ⟨by rw [hstep], hget, ?_⟩
  intro hne hbody
  rw [hget] at hbody
  exact hne (Body.itemJson.inj hbody)

/-- C4 witness: the concrete scenario — row 1 exists, the cache holds a
stale serialized copy under `"item:1"`, the payload renames the item without
touching `id` — updates successfully and the following read returns the
updated item. -/
theorem c4_update_then_get_fresh_witness :
    (updateItem ⟨some ⟨[⟨1, "a", "d", 5, 5⟩], 2⟩,
        some ⟨[("item:1", "stale", 999)], false⟩, 40⟩ 1
        (some ⟨none, some "b", none, none, none⟩)).1 =
        ⟨200, Body.itemJson ⟨1, "b", "d", 5, 40⟩⟩ ∧
      (getItem (updateItem ⟨some ⟨[⟨1, "a", "d", 5, 5⟩], 2⟩,
          some ⟨[("item:1", "stale", 999)], false⟩, 40⟩ 1
          (some ⟨none, some "b", none, none, none⟩)).2 1).1 =
        ⟨200, Body.itemJson ⟨1, "b", "d", 5, 40⟩⟩ := by
  have h := c4_update_then_get_fresh [⟨1, "a", "d", 5, 5⟩] 2 40 1
    (some ⟨[("item:1", "stale", 999)], false⟩) ⟨none, some "b", none, none, none⟩
    ⟨1, "a", "d", 5, 5⟩ rfl rfl
  exact ⟨h.1, h.2.1⟩

/-- C5: `Delete`, `Get` (absent a usable cached copy) and `Update` on an id
that is absent from the store all answer 404; deleting an existing id
answers 204, after which a second `Delete`, a `Get` and an `Update` of the
same id all answer 404 — a repeated delete signals NotFound, never
success. -/
theorem c5_notfound_semantics (rows : List Item) (nid now id : Nat)
    (co : Option CacheState) (p : Payload) (it : Item) :
    (storeFirst rows id = none →
        (deleteItem ⟨some ⟨rows, nid⟩, co, now⟩ id).1 =
            ⟨404, Body.errJson "Item not found"⟩ ∧
          (updateItem ⟨some ⟨rows, nid⟩, co, now⟩ id (some p)).1 =
            ⟨404, Body.errJson "Item not found"⟩ ∧
          (cacheHit co (itemKey id) now = false →
            (getItem ⟨some ⟨rows, nid⟩, co, now⟩ id).1 =
              ⟨404, Body.errJson "Item not found"⟩)) ∧
      (storeFirst rows id = some it →
        (deleteItem ⟨some ⟨rows, nid⟩, co, now⟩ id).1 = ⟨204, Body.noContent⟩ ∧
          (deleteItem (deleteItem ⟨some ⟨rows, nid⟩, co, now⟩ id).2 id).1 =
            ⟨404, Body.errJson "Item not found"⟩ ∧
          (getItem (deleteItem ⟨some ⟨rows, nid⟩, co, now⟩ id).2 id).1 =
            ⟨404, Body.errJson "Item not found"⟩ ∧
          (updateItem (deleteItem ⟨some ⟨rows, nid⟩, co, now⟩ id).2 id (some p)).1 =
            ⟨404, Body.errJson "Item not found"⟩) := by
  constructor
  · intro h
    refine ⟨by simp [deleteItem, h], by simp [updateItem, h], ?_⟩
    intro hch
    rw [getItem_no_hit ⟨some ⟨rows, nid⟩, co, now⟩ id hch]
    simp [getItemFromStore, h]
  · intro h
    have hitid : it.id = id := storeFirst_id rows id it h
    have hstep : deleteItem ⟨some ⟨rows, nid⟩, co, now⟩ id =
        (⟨204, Body.noContent⟩,
          invalidate ⟨some ⟨storeDelete rows it.id, nid⟩, co, now⟩ (itemKey id)) := by
      simp [deleteItem, h]
    have hsfd : storeFirst (storeDelete rows it.id) id = none := by
      rw [hitid]
      exact storeFirst_delete rows id
    refine ⟨by rw [hstep], ?_, ?_, ?_⟩
    · rw [hstep]
      cases co with
      | none => simp [invalidate, deleteItem, hsfd]
      | some c => simp [invalidate, deleteItem, hsfd]
    · rw [hstep]
      have hnohit :
          cacheHit (invalidate ⟨some ⟨storeDelete rows it.id, nid⟩, co, now⟩
              (itemKey id)).cache (itemKey id)
            (invalidate ⟨some ⟨storeDelete rows it.id, nid⟩, co, now⟩ (itemKey id)).now =
            false := by
        cases co with
        | none => rfl
        | some c => simpa [invalidate] using cacheHit_del c (itemKey id) now
      rw [getItem_no_hit _ _ hnohit]
      cases co with
      | none => simp [invalidate, getItemFromStore, hsfd]
      | some c => simp [invalidate, getItemFromStore, hsfd]
    · rw [hstep]
      cases co with
      | none => simp [invalidate, updateItem, hsfd]
      | some c => simp [invalidate, updateItem, hsfd]

/-- C5 witness: deleting the missing id 5 from an empty table answers 404;
deleting the existing id 1 answers 204 and a second delete of id 1 answers
404. -/
theorem c5_notfound_semantics_witness :
    (deleteItem ⟨some ⟨[], 1⟩, none, 0⟩ 5).1 = ⟨404, Body.errJson "Item not found"⟩ ∧
      (deleteItem ⟨some ⟨[⟨1, "a", "d", 0, 0⟩], 2⟩, none, 3⟩ 1).1 = ⟨204, Body.noContent⟩ ∧
      (deleteItem (deleteItem ⟨some ⟨[⟨1, "a", "d", 0, 0⟩], 2⟩, none, 3⟩ 1).2 1).1 =
        ⟨404, Body.errJson "Item not found"⟩ := by
  have h1 := (c5_notfound_semantics [] 1 0 5 none ⟨none, none, none, none, none⟩
    ⟨0, "", "", 0, 0⟩).1 rfl
  have h2 := (c5_notfound_semantics [⟨1, "a", "d", 0, 0⟩] 2 3 1 none
    ⟨none, none, none, none, none⟩ ⟨1, "a", "d", 0, 0⟩).2 rfl
  exact ⟨h1.1, h2.1, h2.2.1⟩

/-- C9 amended: when the cache holds a non-expired entry for `"item:" + id`
whose value is not whitespace-only, `getItem` returns the cached bytes
verbatim with status 200, leaving the whole state (store included)
untouched; a whitespace-only value is treated as a miss.  On a miss or with
the cache absent, `getItem` delegates to the store and, on success, answers
with the row and populates the cache entry with the serialized row and a
10-minute time-to-live. -/
theorem c9_cache_aside_read (dbo : Option Db) (c : CacheState) (rows : List Item)
    (nid now id : Nat) (v : String) (it : Item) (co : Option CacheState) :
    (cacheGet c (itemKey id) now = Except.ok v → trimSpace v ≠ "" →
        getItem ⟨dbo, some c, now⟩ id = (⟨200, Body.rawData v⟩, ⟨dbo, some c, now⟩)) ∧
      (cacheHit co (itemKey id) now = false → storeFirst rows id = some it →
        (getItem ⟨some ⟨rows, nid⟩, co, now⟩ id).1 = ⟨200, Body.itemJson it⟩ ∧
          (getItem ⟨some ⟨rows, nid⟩, co, now⟩ id).2.cache =
            Option.map
              (fun c0 => cacheSet c0 (itemKey id) (serializeItem it) (now + 10 * goMinute))
              co) := by
  constructor
  · intro hg hv
    simp [getItem, hg, hv]
  · intro hch hf
    rw [getItem_no_hit ⟨some ⟨rows, nid⟩, co, now⟩ id hch]
    cases co with
    | none => simp [getItemFromStore, hf]
    | some c0 => simp [getItemFromStore, hf]

/-- C9 witness: a fresh non-blank entry under `"item:4"` is served verbatim
with the state unchanged, and a read through the absent cache finds row 2 in
the store. -/
theorem c9_cache_aside_read_witness :
    getItem ⟨none, some ⟨[("item:4", "X", 10)], false⟩, 0⟩ 4 =
        (⟨200, Body.rawData "X"⟩, ⟨none, some ⟨[("item:4", "X", 10)], false⟩, 0⟩) ∧
      (getItem ⟨some ⟨[⟨2, "b", "", 1, 1⟩], 3⟩, none, 0⟩ 2).1 =
        ⟨200, Body.itemJson ⟨2, "b", "", 1, 1⟩⟩ := by
  have h1 := (c9_cache_aside_read none ⟨[("item:4", "X", 10)], false⟩ [] 0 0 4 "X"
    ⟨0, "", "", 0, 0⟩ none).1 rfl (by decide)
  have h2 := (c9_cache_aside_read none ⟨[], false⟩ [⟨2, "b", "", 1, 1⟩] 3 0 2 ""
    ⟨2, "b", "", 1, 1⟩ none).2 rfl rfl
  exact ⟨h1, h2.1⟩

/-- C10 amended: with no persistent store (`db == nil`), a well-formed
`Create` answers 201 echoing the bound payload (identifier 0 only when the
body does not itself supply an `id` field) and modifies no state; `Get` on
any id answers 404 provided the cache yields no usable hit for it (`Update`
and `Delete` answer 404 unconditionally); and `List` answers 200 with the
nil collection. -/
theorem c10_degraded_mode (co : Option CacheState) (p : Payload) (b : Option Payload)
    (now id : Nat) :
    (createItem ⟨none, co, now⟩ (some p)).1 =
        ⟨201, Body.itemJson { bindItem zeroItem p with createdAt := now, updatedAt := now }⟩ ∧
      (createItem ⟨none, co, now⟩ (some p)).2 = ⟨none, co, now⟩ ∧
      (cacheHit co (itemKey id) now = false →
        (getItem ⟨none, co, now⟩ id).1 = ⟨404, Body.errJson "Item not found"⟩) ∧
      (updateItem ⟨none, co, now⟩ id b).1 = ⟨404, Body.errJson "Item not found"⟩ ∧
      (deleteItem ⟨none, co, now⟩ id).1 = ⟨404, Body.errJson "Item not found"⟩ ∧
      getItems ⟨none, co, now⟩ = (⟨200, Body.listJson none⟩, ⟨none, co, now⟩) := by
  refine ⟨rfl, rfl, ?_, rfl, rfl, rfl⟩
  intro hch
  rw [getItem_no_hit ⟨none, co, now⟩ id hch]
  rfl

/-- C10 witness: with the store and cache both absent, Create echoes the
bound item with identifier 0 and the subsequent Get answers 404. -/
theorem c10_degraded_mode_witness :
    (createItem ⟨none, none, 5⟩ (some ⟨none, some "x", none, none, none⟩)).1 =
        ⟨201, Body.itemJson ⟨0, "x", "", 5, 5⟩⟩ ∧
      (getItem ⟨none, none, 5⟩ 9).1 = ⟨404, Body.errJson "Item not found"⟩ := by
  have h := c10_degraded_mode none ⟨none, some "x", none, none, none⟩ none 5 9
  exact ⟨h.1, h.2.2.1 rfl⟩
